import Mathlib

/-!
# Verification of the signal-snapshot key-unwrapping pipeline

Shallow embedding of `src/decrypt_key.py` (the key-unwrapping core) and
`src/app/analytics.py` (the analytics collaborator) of the
`ahstewart/signal-snapshot` repository.

Conventions:
* Python `bytes` values are `List Nat` (each element a byte value; the
  embedding never needs mod-256 arithmetic because the code only slices,
  compares and decodes byte strings).
* Python `str` values are `List Nat` of Unicode code points.
* A raised exception that the source catches is an `Except.error` / `none`
  result, tagged by the site that raised it.
* The external AES-GCM primitive (pycryptodome `AES.new` /
  `decrypt_and_verify`) is a parameter: a `GCM` structure holding an
  encryption and an authenticated-decryption function.  Facts the proofs
  need about it (AEAD correctness, 16-byte tags, rejection of wrong-length
  tags) are explicit hypotheses, and `gcmToy` is a concrete instance
  satisfying them, used to evaluate the embedding on closed inputs.
  Two checks the pycryptodome wrapper itself performs at `AES.new` are part
  of the embedding because the Python code relies on them: the key length
  must be 16, 24 or 32 bytes, and a GCM nonce must be non-empty.
-/

set_option autoImplicit false

/-- The 3-byte header literal `b'v10'` (`src/decrypt_key.py` line 87). -/
def v10 : List Nat := [118, 49, 48]

/-- The 3-byte header literal `b'v11'` (`src/decrypt_key.py` line 87). -/
def v11 : List Nat := [118, 49, 49]

/-- The 5-byte ASCII marker `b'DPAPI'` that prefixes the encrypted master
key blob (`src/decrypt_key.py` line 36). -/
def dpapiBytes : List Nat := [68, 80, 65, 80, 73]

/-- Interface of the external AES-GCM primitive (pycryptodome).
`enc key nonce plaintext` returns `(ciphertext, tag)`;
`decv key nonce ciphertext tag` is `decrypt_and_verify`: `some plaintext`
on tag verification success, `none` on MAC failure. -/
structure GCM where
  enc : List Nat → List Nat → List Nat → List Nat × List Nat
  decv : List Nat → List Nat → List Nat → List Nat → Option (List Nat)

/-- AEAD correctness of a `GCM` instance: decrypting what was encrypted
under the same key and nonce verifies and returns the plaintext. -/
def GCM.Correct (g : GCM) : Prop :=
  ∀ k n pt, g.decv k n (g.enc k n pt).1 (g.enc k n pt).2 = some pt

/-- A `GCM` instance produces 16-byte authentication tags. -/
def GCM.TagLen16 (g : GCM) : Prop :=
  ∀ k n pt, ((g.enc k n pt).2).length = 16

/-- A `GCM` instance rejects any tag that is not 16 bytes long
(`decrypt_and_verify` with default `mac_len=16` compares against a 16-byte
digest, so a wrong-length tag can never verify). -/
def GCM.RejShortTag (g : GCM) : Prop :=
  ∀ k n ct tag, tag.length ≠ 16 → g.decv k n ct tag = none

/-- Failure site of `decrypt_db_key`.  The Python function catches every
exception and returns `None`; the constructor records which operation
raised.  In the spec's taxonomy, `headerErr`, `keyLenErr`, `nonceErr` and
`utf8Err` are format-class failures and `authErr` is the
authentication-failure class (MAC check failed). -/
inductive DecErr where
  /-- the explicit header check at line 87 raised `ValueError` -/
  | headerErr
  /-- `AES.new` rejected the key length (not 16, 24 or 32 bytes) -/
  | keyLenErr
  /-- `AES.new` rejected an empty GCM nonce -/
  | nonceErr
  /-- `decrypt_and_verify` raised: MAC tag verification failed -/
  | authErr
  /-- `bytes.decode('utf-8')` raised: plaintext is not valid UTF-8 -/
  | utf8Err
deriving DecidableEq

/-- Whether a failure is in the spec's `FormatError` class (as opposed to
`AuthenticationError`). -/
def DecErr.isFormatClass : DecErr → Bool
  | .authErr => false
  | _ => true

deriving instance DecidableEq for Except

/-- One step of strict UTF-8 decoding: given the first byte and the
remaining bytes, decode one scalar value and return it with the bytes left
over, or `none` on malformed input.  Mirrors Python's strict
`bytes.decode('utf-8')`: rejects stray continuation bytes, overlong
encodings, surrogates (U+D800–U+DFFF) and code points above U+10FFFF. -/
def utf8Step (b : Nat) (rest : List Nat) : Option (Nat × List Nat) :=
  if b ≤ 0x7F then some (b, rest)
  else if 0xC2 ≤ b ∧ b ≤ 0xDF then
    match rest with
    | c1 :: rest2 =>
      if 0x80 ≤ c1 ∧ c1 ≤ 0xBF then
        some ((b - 0xC0) * 64 + (c1 - 0x80), rest2)
      else none
    | [] => none
  else if 0xE0 ≤ b ∧ b ≤ 0xEF then
    match rest with
    | c1 :: c2 :: rest3 =>
      if (0x80 ≤ c1 ∧ c1 ≤ 0xBF) ∧ (0x80 ≤ c2 ∧ c2 ≤ 0xBF) ∧
          (b ≠ 0xE0 ∨ 0xA0 ≤ c1) ∧ (b ≠ 0xED ∨ c1 ≤ 0x9F) then
        some ((b - 0xE0) * 4096 + (c1 - 0x80) * 64 + (c2 - 0x80), rest3)
      else none
    | _ => none
  else if 0xF0 ≤ b ∧ b ≤ 0xF4 then
    match rest with
    | c1 :: c2 :: c3 :: rest4 =>
      if (0x80 ≤ c1 ∧ c1 ≤ 0xBF) ∧ (0x80 ≤ c2 ∧ c2 ≤ 0xBF) ∧
          (0x80 ≤ c3 ∧ c3 ≤ 0xBF) ∧
          (b ≠ 0xF0 ∨ 0x90 ≤ c1) ∧ (b ≠ 0xF4 ∨ c1 ≤ 0x8F) then
        some ((b - 0xF0) * 262144 + (c1 - 0x80) * 4096 +
              (c2 - 0x80) * 64 + (c3 - 0x80), rest4)
      else none
    | _ => none
  else none

/-- Fuel-indexed UTF-8 decoding loop.  Each `utf8Step` consumes at least
one byte, so fuel equal to the byte count (as supplied by `utf8Decode`)
never runs out. -/
def utf8DecodeAux : Nat → List Nat → Option (List Nat)
  | _, [] => some []
  | 0, _ :: _ => none
  | Nat.succ fuel, b :: rest =>
    match utf8Step b rest with
    | some (cp, rest2) =>
      match utf8DecodeAux fuel rest2 with
      | some cs => some (cp :: cs)
      | none => none
    | none => none

/-- Strict UTF-8 decoding of a byte sequence into code points, as Python's
`bytes.decode('utf-8')`. -/
def utf8Decode (bs : List Nat) : Option (List Nat) :=
  utf8DecodeAux bs.length bs

/-- Embedding of `decrypt_db_key(master_key, wrapped_key)`
(`src/decrypt_key.py` lines 75–107).  Slices follow Python semantics:
`wrapped[:3]` is `take 3`, `wrapped[3:15]` is `(drop 3).take 12`,
`wrapped[15:]` is `drop 15`, `x[-16:]` is `drop (x.length - 16)` and
`x[:-16]` is `take (x.length - 16)` (Nat subtraction truncates at 0
exactly as Python clamps negative-start slices).  The source performs no
length check on `wrapped` and no 32-byte check on `master_key`; the key
length and nonce checks below are the ones `AES.new` itself performs. -/
def decrypt_db_key (g : GCM) (master_key wrapped : List Nat) :
    Except DecErr (List Nat) :=
  let header := wrapped.take 3
  let nonce := (wrapped.drop 3).take 12
  let ciphertext_with_tag := wrapped.drop 15
  if header = v10 ∨ header = v11 then
    let tag := ciphertext_with_tag.drop (ciphertext_with_tag.length - 16)
    let ciphertext := ciphertext_with_tag.take (ciphertext_with_tag.length - 16)
    if master_key.length = 16 ∨ master_key.length = 24 ∨ master_key.length = 32 then
      if nonce.length = 0 then Except.error DecErr.nonceErr
      else
        match g.decv master_key nonce ciphertext tag with
        | some pt =>
          match utf8Decode pt with
          | some cps => Except.ok (48 :: 120 :: cps)
          | none => Except.error DecErr.utf8Err
        | none => Except.error DecErr.authErr
    else Except.error DecErr.keyLenErr
  else Except.error DecErr.headerErr

/-- Control-flow instrumentation of `decrypt_db_key`: `true` exactly when
execution reaches the `AES.new` call at line 95, i.e. when the header check
at line 87 passes.  The source has no other guard before the cipher is
constructed. -/
def cipherInvoked (wrapped : List Nat) : Bool :=
  wrapped.take 3 == v10 || wrapped.take 3 == v11

/-- A 16-byte keyed checksum used by the concrete `gcmToy` instance. -/
def macToy (k n ct : List Nat) : List Nat :=
  (k ++ n ++ ct ++ List.replicate 16 0).take 16

/-- A concrete, executable `GCM` instance used to evaluate the embedding on
closed inputs: the ciphertext is the plaintext and the tag is a 16-byte
keyed checksum, so it satisfies `GCM.Correct`, `GCM.TagLen16` and
`GCM.RejShortTag`.  It stands in for the external cipher only where a
claim is decided by the wrapper's own control flow. -/
def gcmToy : GCM where
  enc := fun k n pt => (pt, macToy k n pt)
  decv := fun k n ct tag => if tag = macToy k n ct then some ct else none

theorem macToy_length (k n ct : List Nat) : (macToy k n ct).length = 16 := by
  simp [macToy, List.length_take, List.length_append]
  omega

theorem gcmToy_correct : GCM.Correct gcmToy := by
  intro k n pt
  simp [gcmToy, GCM.Correct]

theorem gcmToy_tagLen16 : GCM.TagLen16 gcmToy := by
  intro k n pt
  simp [gcmToy, GCM.TagLen16, macToy_length]

theorem gcmToy_rejShortTag : GCM.RejShortTag gcmToy := by
  intro k n ct tag htag
  by_cases h : tag = macToy k n ct
  · exact absurd (h ▸ macToy_length k n ct) htag
  · simp [gcmToy, h]

theorem utf8DecodeAux_ascii (fuel : Nat) :
    ∀ bs : List Nat, bs.length ≤ fuel → (∀ b ∈ bs, b ≤ 0x7F) →
      utf8DecodeAux fuel bs = some bs := by
  induction fuel with
  | zero =>
    intro bs hlen _
    match bs with
    | [] => rfl
    | b :: t => simp at hlen
  | succ fuel ih =>
    intro bs hlen h
    match bs with
    | [] => rfl
    | b :: t =>
      have hb : b ≤ 0x7F := h b (List.mem_cons_self b t)
      have ht : utf8DecodeAux fuel t = some t :=
        ih t (by simp at hlen; omega)
          (fun x hx => h x (List.mem_cons_of_mem b hx))
      simp [utf8DecodeAux, utf8Step, hb, ht]

/-- Decoding a pure-ASCII byte sequence returns the same sequence of code
points. -/
theorem utf8Decode_ascii (bs : List Nat) (h : ∀ b ∈ bs, b ≤ 0x7F) :
    utf8Decode bs = some bs :=
  utf8DecodeAux_ascii bs.length bs (Nat.le_refl _) h

/-- A byte of an ASCII hexadecimal digit: `'0'`–`'9'`, `'a'`–`'f'` or
`'A'`–`'F'`. -/
def isHexDigitByte (c : Nat) : Prop :=
  (48 ≤ c ∧ c ≤ 57) ∨ (97 ≤ c ∧ c ≤ 102) ∨ (65 ≤ c ∧ c ≤ 70)

instance (c : Nat) : Decidable (isHexDigitByte c) := by
  unfold isHexDigitByte
  infer_instance

/-!
## MasterKeyResolver (`get_master_key`, `src/decrypt_key.py` lines 17–47)

The file access, JSON parsing and Base64 decoding feed into the part the
claims are about: stripping the 5-byte `DPAPI` marker and calling
`win32crypt.CryptUnprotectData(data, None, None, None, 0)`.  The platform
protector is external, so it is a parameter of the embedding; its pywin32
signature `(DataIn, OptionalEntropy, Reserved, PromptStruct, Flags)`
returning a `(description, data)` pair is modelled as
`List Nat → Option (List Nat) → Option Nat → Nat → Option (List Nat × List Nat)`
(`none` for a raised exception, which the source catches).
-/

/-- Embedding of the marker-stripping and unprotection step of
`get_master_key` (`src/decrypt_key.py` lines 34–43): from the
Base64-decoded blob, drop the first 5 bytes *unconditionally* and pass the
remainder to `CryptUnprotectData` with `None` entropy, `None` prompt and
flags `0`, returning component `[1]` (the data) of the result. -/
def get_master_key_core
    (unprotect : List Nat → Option (List Nat) → Option Nat → Nat →
      Option (List Nat × List Nat))
    (blob : List Nat) : Option (List Nat) :=
  Option.map Prod.snd (unprotect (blob.drop 5) none none 0)

/-!
## PathResolver (`get_appdata_path`, `src/decrypt_key.py` lines 8–15)
-/

/-- The environment variables the path helper reads; `none` models an
unset variable (`os.getenv` returns `None`). -/
structure WinEnv where
  appdata : Option String
  localAppdata : Option String

/-- Embedding of `get_appdata_path(local)` (`src/decrypt_key.py` lines
8–15): `LOCALAPPDATA` when `local` is true, else `APPDATA`. -/
def get_appdata_path (env : WinEnv) (loc : Bool) : Option String :=
  if loc then env.localAppdata else env.appdata

/-- Windows `os.path.join base comp` for a relative, non-empty component
`comp` (the only shape the source joins): inserts a backslash unless
`base` already ends in a separator or a drive colon, or is empty. -/
def ntJoin (base comp : String) : String :=
  if base = "" ∨ base.endsWith "\\" ∨ base.endsWith "/" ∨ base.endsWith ":" then
    base ++ comp
  else base ++ "\\" ++ comp

/-- The `Local State` path built by `get_master_key`
(`src/decrypt_key.py` line 25):
`os.path.join(get_appdata_path(local=False), 'Signal', 'Local State')`;
`none` when the environment variable is unset (in Python,
`os.path.join(None, ...)` raises, and the source catches it). -/
def local_state_path (env : WinEnv) : Option String :=
  Option.map (fun base => ntJoin (ntJoin base "Signal") "Local State")
    (get_appdata_path env false)

/-- The `config.json` path built by `get_wrapped_db_key`
(`src/decrypt_key.py` line 55):
`os.path.join(get_appdata_path(), 'Signal', 'config.json')` — the
`local` parameter is left at its default `False`. -/
def config_path (env : WinEnv) : Option String :=
  Option.map (fun base => ntJoin (ntJoin base "Signal") "config.json")
    (get_appdata_path env false)

/-!
## Orchestrator (`__main__` block, `src/decrypt_key.py` lines 110–129)

The three stages are parameters: `gm` is the result of
`get_master_key()`, `gw` of `get_wrapped_db_key()` and `dk` is
`decrypt_db_key` (each returns `None` — here `none` — on failure).  The
Python code gates each later stage with truthiness (`if master_key:`),
so an empty bytes value is also treated as a failed stage.  The embedding
additionally returns the list of stages invoked, in invocation order, for
the temporal claims.
-/

/-- The three pipeline stages, in the order the `__main__` block calls
them. -/
inductive Stage where
  | master
  | wrapped
  | unwrap
deriving DecidableEq

/-- Embedding of the `__main__` sequencing (`src/decrypt_key.py` lines
115–126).  Returns the final key surfaced to the user (`none` when
nothing is printed) together with the stages invoked. -/
def orchestrate (gm gw : Option (List Nat))
    (dk : List Nat → List Nat → Option (List Nat)) :
    Option (List Nat) × List Stage :=
  match gm with
  | none => (none, [Stage.master])
  | some mk =>
    if mk.isEmpty then (none, [Stage.master])
    else
      match gw with
      | none => (none, [Stage.master, Stage.wrapped])
      | some wk =>
        if wk.isEmpty then (none, [Stage.master, Stage.wrapped])
        else
          match dk mk wk with
          | none => (none, [Stage.master, Stage.wrapped, Stage.unwrap])
          | some fk =>
            (if fk.isEmpty then none else some fk,
             [Stage.master, Stage.wrapped, Stage.unwrap])

/-!
## Analytics collaborator (`src/app/analytics.py`)

A `pandas.DataFrame` with a `timestamp`, a `contact` and (optionally) a
`type` column is modelled as a list of rows plus two dataset-level facts
pandas keeps in the frame itself: the dtype of the `timestamp` column
(numeric epoch-milliseconds vs. converted datetime — `pd.to_datetime(x,
unit='ms')` replaces the column with datetime objects denoting the same
instants) and whether the `type` column is present.  Row instants are kept
as epoch milliseconds in both dtypes, which is exactly the information the
datetime accessors `.dt.date` and `.dt.hour` read back.
-/

/-- Dtype of the `timestamp` column. -/
inductive TsDtype where
  | numeric
  | datetime
deriving DecidableEq

/-- One message record. -/
structure MsgRow where
  ts : Int
  contact : Nat
  msgType : Nat
deriving DecidableEq

/-- The dataset held in `SignalAnalytics.data`. -/
structure SigData where
  tsDtype : TsDtype
  hasType : Bool
  rows : List MsgRow
deriving DecidableEq

/-- The in-place conversion both time-based queries perform
(`src/app/analytics.py` lines 20–21 and 76–77): if the `timestamp`
column is numeric, `self.data['timestamp'] = pd.to_datetime(...)`
replaces it with a datetime column of the same instants. -/
def ensure_datetime (s : SigData) : SigData :=
  match s.tsDtype with
  | TsDtype.numeric => { s with tsDtype := TsDtype.datetime }
  | TsDtype.datetime => s

/-- `.dt.date` of an epoch-millisecond instant, as a day number (floor
division, matching calendar days before and after the epoch). -/
def dtDate (ms : Int) : Int := Int.fdiv ms 86400000

/-- `.dt.hour` of an epoch-millisecond instant. -/
def dtHour (ms : Int) : Int := (Int.fdiv ms 3600000) % 24

/-- `groupby(key).size()` / `value_counts()` raw counts: each distinct
key (in first-occurrence order) paired with its multiplicity. -/
def countsBy {α β : Type} [DecidableEq β] (f : α → β) (l : List α) :
    List (β × Nat) :=
  ((l.map f).dedup).map (fun b => (b, (l.map f).count b))

/-- Insert into a list sorted by ascending key (groupby sorts group keys
ascending by default). -/
def insertAscBy {β : Type} (le : β → β → Bool) (x : β × Nat) :
    List (β × Nat) → List (β × Nat)
  | [] => [x]
  | y :: ys =>
    if le x.1 y.1 then x :: y :: ys else y :: insertAscBy le x ys

/-- Sort key/count pairs by ascending key. -/
def sortAscBy {β : Type} (le : β → β → Bool) :
    List (β × Nat) → List (β × Nat)
  | [] => []
  | x :: xs => insertAscBy le x (sortAscBy le xs)

/-- Insert into a list sorted by descending count (`value_counts` orders
by count, largest first). -/
def insertDescCount {β : Type} (x : β × Nat) :
    List (β × Nat) → List (β × Nat)
  | [] => [x]
  | y :: ys =>
    if y.2 < x.2 then x :: y :: ys else y :: insertDescCount x ys

/-- Sort key/count pairs by descending count. -/
def sortDescCount {β : Type} : List (β × Nat) → List (β × Nat)
  | [] => []
  | x :: xs => insertDescCount x (sortDescCount xs)

/-- `Series.value_counts()`: distinct values with multiplicities, ordered
by descending count. -/
def value_counts {β : Type} [DecidableEq β] (l : List β) : List (β × Nat) :=
  sortDescCount (countsBy id l)

/-- Embedding of `SignalAnalytics.get_message_counts`
(`src/app/analytics.py` lines 10–31): converts a numeric timestamp column
in place, then groups by day and by hour.  Returned as
`((by_day, by_hour), new dataset state)`. -/
def get_message_counts (s : SigData) :
    (List (Int × Nat) × List (Int × Nat)) × SigData :=
  let s1 := ensure_datetime s
  ((sortAscBy (fun a b => a ≤ b) (countsBy (fun r => dtDate r.ts) s1.rows),
    sortAscBy (fun a b => a ≤ b) (countsBy (fun r => dtHour r.ts) s1.rows)),
   s1)

/-- Embedding of `SignalAnalytics.get_top_contacts`
(`src/app/analytics.py` lines 33–45): top `n` contacts by volume and the
total number of distinct contacts.  Does not touch the dataset. -/
def get_top_contacts (s : SigData) (n : Nat) :
    (List (Nat × Nat) × Nat) × SigData :=
  let cc := value_counts (s.rows.map MsgRow.contact)
  ((cc.take n, cc.length), s)

/-- Embedding of `SignalAnalytics.get_message_distribution`
(`src/app/analytics.py` lines 47–62): `none` models the
`{"error": ...}` result when the `type` column is absent; otherwise the
type counts and the total row count.  Does not touch the dataset. -/
def get_message_distribution (s : SigData) :
    Option (List (Nat × Nat) × Nat) × SigData :=
  if s.hasType then
    (some (value_counts (s.rows.map MsgRow.msgType), s.rows.length), s)
  else (none, s)

/-- Embedding of `SignalAnalytics.get_active_hours`
(`src/app/analytics.py` lines 64–86): converts a numeric timestamp column
in place, then returns the hour distribution and the hours attaining the
maximum count. -/
def get_active_hours (s : SigData) :
    (List (Int × Nat) × List Int) × SigData :=
  let s1 := ensure_datetime s
  let hc := sortAscBy (fun a b => a ≤ b) (countsBy (fun r => dtHour r.ts) s1.rows)
  let m := (hc.map Prod.snd).foldr max 0
  ((hc, (hc.filter (fun p => p.2 = m)).map Prod.fst), s1)

/-- A one-row dataset whose `timestamp` column is still numeric (epoch
milliseconds), as a CSV upload with integer timestamps produces. -/
def sNum : SigData :=
  { tsDtype := TsDtype.numeric, hasType := true,
    rows := [{ ts := 0, contact := 0, msgType := 0 }] }

/-- The same one-row dataset after its `timestamp` column has been
converted to datetime. -/
def sDt : SigData :=
  { tsDtype := TsDtype.datetime, hasType := true,
    rows := [{ ts := 0, contact := 0, msgType := 0 }] }

/-!
## Claim theorems for the KeyUnwrapper
-/

theorem parse_header_v10 (rest : List Nat) : (v10 ++ rest).take 3 = v10 :=
  List.take_left' rfl

theorem parse4_header (hd n ct tag : List Nat) (h3 : hd.length = 3) :
    (hd ++ n ++ ct ++ tag).take 3 = hd := by
  rw [List.append_assoc, List.append_assoc]
  exact List.take_left' h3

theorem parse4_nonce (hd n ct tag : List Nat) (h3 : hd.length = 3)
    (hn : n.length = 12) : ((hd ++ n ++ ct ++ tag).drop 3).take 12 = n := by
  rw [List.append_assoc, List.append_assoc, List.drop_left' h3]
  exact List.take_left' hn

theorem parse4_body (hd n ct tag : List Nat) (h3 : hd.length = 3)
    (hn : n.length = 12) : (hd ++ n ++ ct ++ tag).drop 15 = ct ++ tag := by
  rw [List.append_assoc (hd ++ n) ct tag]
  exact List.drop_left' (by simp [h3, hn])

theorem parse_tag (ct tag : List Nat) (htag : tag.length = 16) :
    (ct ++ tag).drop ((ct ++ tag).length - 16) = tag := by
  have h : (ct ++ tag).length - 16 = ct.length := by
    simp [htag]
  rw [h]
  exact List.drop_left ct tag

theorem parse_ct (ct tag : List Nat) (htag : tag.length = 16) :
    (ct ++ tag).take ((ct ++ tag).length - 16) = ct := by
  have h : (ct ++ tag).length - 16 = ct.length := by
    simp [htag]
  rw [h]
  exact List.take_left ct tag

/-- **C1.** For every 32-byte master key and every wrapped value of valid
layout (length at least 31 and a recognized header), if AES-GCM tag
verification fails on the parsed nonce, ciphertext and tag, then
`decrypt_db_key` fails with the authentication error and releases no
plaintext: the result is `Except.error DecErr.authErr`, never some other
`DatabaseKey`. -/
theorem unwrap_fail_closed (g : GCM) (k w : List Nat)
    (hk : k.length = 32) (hw : 31 ≤ w.length)
    (hh : w.take 3 = v10 ∨ w.take 3 = v11)
    (hd : g.decv k ((w.drop 3).take 12)
        ((w.drop 15).take ((w.drop 15).length - 16))
        ((w.drop 15).drop ((w.drop 15).length - 16)) = none) :
    decrypt_db_key g k w = Except.error DecErr.authErr := by
  simp only [decrypt_db_key]
  rw [if_pos hh, if_pos (Or.inr (Or.inr hk)),
    if_neg (by simp [List.length_take, List.length_drop]; omega), hd]

/-- Witness for `unwrap_fail_closed`: the all-zero 32-byte key, the
wrapped value `v10 ‖ 12-zero nonce ‖ 16-zero ciphertext ‖ 16-one tag`, and
the concrete `gcmToy` cipher, whose tag verification fails there. -/
theorem unwrap_fail_closed_witness :
    (List.replicate 32 0 : List Nat).length = 32 ∧
    31 ≤ (v10 ++ List.replicate 12 0 ++ List.replicate 16 0 ++
      List.replicate 16 1 : List Nat).length ∧
    decrypt_db_key gcmToy (List.replicate 32 0)
      (v10 ++ List.replicate 12 0 ++ List.replicate 16 0 ++
        List.replicate 16 1) = Except.error DecErr.authErr :=
  ⟨by decide, by decide,
    unwrap_fail_closed gcmToy (List.replicate 32 0)
      (v10 ++ List.replicate 12 0 ++ List.replicate 16 0 ++
        List.replicate 16 1)
      (by decide) (by decide) (by decide) (by decide)⟩

/-- **C2.** Round-trip: for every AEAD-correct cipher with 16-byte tags,
every 32-byte key `k`, 12-byte nonce `n` and 64-character hex plaintext
`p`, encrypting `p` under `(k, n)`, forming
`wrapped = "v10" ‖ n ‖ ciphertext ‖ tag` and unwrapping with `k` returns
exactly `"0x" ++ p`. -/
theorem unwrap_round_trip (g : GCM) (k n p : List Nat)
    (hc : GCM.Correct g) (ht : GCM.TagLen16 g)
    (hk : k.length = 32) (hn : n.length = 12) (_hp : p.length = 64)
    (hhex : ∀ c ∈ p, isHexDigitByte c) :
    decrypt_db_key g k (v10 ++ n ++ (g.enc k n p).1 ++ (g.enc k n p).2) =
      Except.ok (48 :: 120 :: p) := by
  have htag : ((g.enc k n p).2).length = 16 := ht k n p
  have hascii : ∀ b ∈ p, b ≤ 0x7F := by
    intro b hb
    rcases hhex b hb with h | h | h <;> omega
  simp only [decrypt_db_key]
  rw [parse4_header v10 n _ _ rfl, if_pos (Or.inl rfl),
    if_pos (Or.inr (Or.inr hk)),
    parse4_nonce v10 n _ _ rfl hn,
    if_neg (by rw [hn]; omega),
    parse4_body v10 n _ _ rfl hn,
    parse_tag _ _ htag, parse_ct _ _ htag,
    hc k n p]
  simp [utf8Decode_ascii p hascii]

/-- Witness for `unwrap_round_trip`: the spec's concrete scenario — the
all-zero 32-byte key, the all-zero 12-byte nonce, and the plaintext made
of 64 repetitions of `'a'`, with the concrete `gcmToy` cipher. -/
theorem unwrap_round_trip_witness :
    GCM.Correct gcmToy ∧ GCM.TagLen16 gcmToy ∧
    (List.replicate 64 97 : List Nat).length = 64 ∧
    (∀ c ∈ (List.replicate 64 97 : List Nat), isHexDigitByte c) ∧
    decrypt_db_key gcmToy (List.replicate 32 0)
      (v10 ++ List.replicate 12 0 ++
        (gcmToy.enc (List.replicate 32 0) (List.replicate 12 0)
          (List.replicate 64 97)).1 ++
        (gcmToy.enc (List.replicate 32 0) (List.replicate 12 0)
          (List.replicate 64 97)).2) =
      Except.ok (48 :: 120 :: List.replicate 64 97) :=
  ⟨gcmToy_correct, gcmToy_tagLen16, by decide, by decide,
    unwrap_round_trip gcmToy (List.replicate 32 0) (List.replicate 12 0)
      (List.replicate 64 97) gcmToy_correct gcmToy_tagLen16
      (by decide) (by decide) (by decide) (by decide)⟩

/-- **C3 counterexample.** The claim says a wrapped value shorter than
31 bytes fails with `FormatError` without invoking the cipher.  At the
concrete 15-byte input `v10 ‖ 12 zero bytes` (with a 32-byte zero key and
the concrete `gcmToy` cipher), execution reaches the `AES.new` call —
the source has no length check — and the failure is the MAC-verification
failure (`authErr`, the `AuthenticationError` class), not a format-class
error. -/
theorem truncated_no_cipher_cex :
    (v10 ++ List.replicate 12 0 : List Nat).length < 31 ∧
    cipherInvoked (v10 ++ List.replicate 12 0) = true ∧
    decrypt_db_key gcmToy (List.replicate 32 0) (v10 ++ List.replicate 12 0) =
      Except.error DecErr.authErr ∧
    DecErr.isFormatClass DecErr.authErr = false := by
  refine ⟨by decide, by decide, by decide, by decide⟩

/-- **C3 amended.** Every wrapped value shorter than 31 bytes makes
`decrypt_db_key` fail — no database key is ever produced from a truncated
value, because a wrong-length tag can never verify — but the source has
no explicit length check, so the cipher may still be invoked (exactly
when the 3-byte header is recognized). -/
theorem truncated_always_fails (g : GCM) (k w : List Nat)
    (hg : GCM.RejShortTag g) (hw : w.length < 31) :
    ∃ e, decrypt_db_key g k w = Except.error e := by
  simp only [decrypt_db_key]
  by_cases hh : w.take 3 = v10 ∨ w.take 3 = v11
  · rw [if_pos hh]
    by_cases hk : k.length = 16 ∨ k.length = 24 ∨ k.length = 32
    · rw [if_pos hk]
      by_cases hnz : ((w.drop 3).take 12).length = 0
      · rw [if_pos hnz]
        exact ⟨DecErr.nonceErr, rfl⟩
      · rw [if_neg hnz]
        have hshort : ((w.drop 15).drop ((w.drop 15).length - 16)).length ≠ 16 := by
          simp [List.length_drop]
          omega
        rw [hg k _ _ _ hshort]
        exact ⟨DecErr.authErr, rfl⟩
    · rw [if_neg hk]
      exact ⟨DecErr.keyLenErr, rfl⟩
  · rw [if_neg hh]
    exact ⟨DecErr.headerErr, rfl⟩

/-- Witness for `truncated_always_fails`: a 5-byte wrapped value under the
concrete `gcmToy` cipher and a 32-byte zero key. -/
theorem truncated_always_fails_witness :
    (List.replicate 5 7 : List Nat).length < 31 ∧
    ∃ e, decrypt_db_key gcmToy (List.replicate 32 0) (List.replicate 5 7) =
      Except.error e :=
  ⟨by decide,
    truncated_always_fails gcmToy (List.replicate 32 0) (List.replicate 5 7)
      gcmToy_rejShortTag (by decide)⟩

/-- **C4.** A wrapped value whose first 3 bytes are neither `"v10"` nor
`"v11"` makes `decrypt_db_key` fail with the header `FormatError` before
any decryption attempt (the cipher constructor is never reached), and the
two recognized headers are treated identically by the rest of the
algorithm: swapping `"v10"` for `"v11"` in front of the same remainder
gives the same result. -/
theorem header_rejected (g : GCM) (k w : List Nat) :
    (¬(w.take 3 = v10 ∨ w.take 3 = v11) →
      decrypt_db_key g k w = Except.error DecErr.headerErr ∧
        cipherInvoked w = false) ∧
    (∀ rest : List Nat,
      decrypt_db_key g k (v10 ++ rest) = decrypt_db_key g k (v11 ++ rest)) := by
  constructor
  · intro hh
    constructor
    · simp only [decrypt_db_key]
      rw [if_neg hh]
    · push_neg at hh
      simp [cipherInvoked, hh.1, hh.2]
  · intro rest
    have h10 : (v10 ++ rest).take 3 = v10 := List.take_left' rfl
    have h11 : (v11 ++ rest).take 3 = v11 := List.take_left' rfl
    have d10 : (v10 ++ rest).drop 3 = rest := List.drop_left' rfl
    have d11 : (v11 ++ rest).drop 3 = rest := List.drop_left' rfl
    have b10 : (v10 ++ rest).drop 15 = rest.drop 12 := by
      have : (15 : Nat) = 3 + 12 := rfl
      rw [this, ← List.drop_drop, d10]
    have b11 : (v11 ++ rest).drop 15 = rest.drop 12 := by
      have : (15 : Nat) = 3 + 12 := rfl
      rw [this, ← List.drop_drop, d11]
    simp only [decrypt_db_key]
    rw [h10, h11, d10, d11, b10, b11,
      if_pos (Or.inl rfl : v10 = v10 ∨ v10 = v11),
      if_pos (Or.inr rfl : v11 = v10 ∨ v11 = v11)]

/-- Witness for `header_rejected`: the spec's example header `"v09"`
(bytes `118, 48, 57`) followed by 28 zero bytes, under the concrete
`gcmToy` cipher and a 32-byte zero key. -/
theorem header_rejected_witness :
    decrypt_db_key gcmToy (List.replicate 32 0)
      ([118, 48, 57] ++ List.replicate 28 0) = Except.error DecErr.headerErr ∧
    cipherInvoked ([118, 48, 57] ++ List.replicate 28 0) = false :=
  (header_rejected gcmToy (List.replicate 32 0)
    ([118, 48, 57] ++ List.replicate 28 0)).1 (by decide)

/-- **C5 counterexample.** The claim says a master key that is not exactly
32 bytes is rejected with `FormatError` regardless of the wrapped value —
in particular a 16-byte key.  At the concrete input below a 16-byte
all-zero key is *used* for decryption: with the concrete `gcmToy` cipher
the unwrap even succeeds and returns a key, so no `FormatError` occurs
(pycryptodome's `AES.new` accepts 16-, 24- and 32-byte keys, selecting
AES-128/192/256, and the source performs no key-length check of its
own). -/
theorem short_key_used_cex :
    (List.replicate 16 0 : List Nat).length ≠ 32 ∧
    decrypt_db_key gcmToy (List.replicate 16 0)
      (v10 ++ List.replicate 12 0 ++
        (gcmToy.enc (List.replicate 16 0) (List.replicate 12 0) [97, 97]).1 ++
        (gcmToy.enc (List.replicate 16 0) (List.replicate 12 0) [97, 97]).2) =
      Except.ok [48, 120, 97, 97] := by
  refine ⟨by decide, by decide⟩

/-- **C5 amended.** A master key whose length is not 16, 24 or 32 bytes is
rejected at cipher construction (`AES.new` raises) whenever the wrapped
value carries a recognized header, before any decryption attempt; 16- and
24-byte keys, however, are accepted and used for decryption. -/
theorem bad_key_length_rejected (g : GCM) (k w : List Nat)
    (hk : k.length ≠ 16 ∧ k.length ≠ 24 ∧ k.length ≠ 32)
    (hh : w.take 3 = v10 ∨ w.take 3 = v11) :
    decrypt_db_key g k w = Except.error DecErr.keyLenErr := by
  simp only [decrypt_db_key]
  rw [if_pos hh, if_neg (by push_neg; exact ⟨hk.1, hk.2.1, hk.2.2⟩)]

/-- Witness for `bad_key_length_rejected`: a 20-byte key and a wrapped
value with a valid `"v10"` header, under the concrete `gcmToy` cipher. -/
theorem bad_key_length_rejected_witness :
    ((List.replicate 20 0 : List Nat).length ≠ 16 ∧
      (List.replicate 20 0 : List Nat).length ≠ 24 ∧
      (List.replicate 20 0 : List Nat).length ≠ 32) ∧
    decrypt_db_key gcmToy (List.replicate 20 0) (v10 ++ List.replicate 28 0) =
      Except.error DecErr.keyLenErr :=
  ⟨by decide,
    bad_key_length_rejected gcmToy (List.replicate 20 0)
      (v10 ++ List.replicate 28 0) (by decide) (by decide)⟩

/-!
## Claim theorems for the MasterKeyResolver, Orchestrator, PathResolver
and analytics collaborator
-/

/-- **C6.** `get_master_key` drops exactly the first 5 bytes of the
Base64-decoded blob and passes the remainder to `CryptUnprotectData` with
no entropy, no prompt and flags `0`, unconditionally: its result is `some
out` exactly when the unprotect call on `blob.drop 5` succeeds with data
`out`, and a concrete blob whose first 5 bytes are not the ASCII `DPAPI`
marker is still stripped and passed on (an echoing unprotect function
receives precisely the last bytes) rather than rejected. -/
theorem master_key_unconditional_strip :
    (∀ (up : List Nat → Option (List Nat) → Option Nat → Nat →
        Option (List Nat × List Nat)) (blob out : List Nat),
      get_master_key_core up blob = some out ↔
        ∃ desc, up (blob.drop 5) none none 0 = some (desc, out)) ∧
    (([0, 1, 2, 3, 4, 5, 6] : List Nat).take 5 ≠ dpapiBytes ∧
      get_master_key_core (fun d _ _ _ => some ([], d)) [0, 1, 2, 3, 4, 5, 6] =
        some [5, 6]) := by
  constructor
  · intro up blob out
    unfold get_master_key_core
    cases h : up (blob.drop 5) none none 0 with
    | none => simp [h]
    | some pr =>
      obtain ⟨d0, v⟩ := pr
      simp [h]
  · exact ⟨by decide, rfl⟩

/-- Witness for `master_key_unconditional_strip`: the forward direction of
the characterization at the echoing unprotect function and the 7-byte
blob `[0,…,6]`, whose first five bytes are not `DPAPI`. -/
theorem master_key_unconditional_strip_witness :
    ∃ desc,
      (fun (d : List Nat) (_ : Option (List Nat)) (_ : Option Nat) (_ : Nat) =>
          some (([] : List Nat), d))
        (([0, 1, 2, 3, 4, 5, 6] : List Nat).drop 5) none none 0 =
        some (desc, [5, 6]) :=
  (master_key_unconditional_strip.1
    (fun (d : List Nat) (_ : Option (List Nat)) (_ : Option Nat) (_ : Nat) =>
      some (([] : List Nat), d))
    [0, 1, 2, 3, 4, 5, 6] [5, 6]).mp rfl

/-- **C7 counterexample.** The claim says every successful unwrap returns
`"0x"` followed by exactly 64 hex characters.  At the concrete input
below (32-byte zero key, `gcmToy` cipher, wrapped value whose verified
plaintext is the two bytes `"zz"`), the unwrap succeeds and returns the
4-character string `"0xzz"` — not 64 characters after the prefix, and
`'z'` is not a hex digit; the source never validates the shape of the
decrypted text. -/
theorem success_shape_cex :
    decrypt_db_key gcmToy (List.replicate 32 0)
      (v10 ++ List.replicate 12 0 ++
        (gcmToy.enc (List.replicate 32 0) (List.replicate 12 0) [122, 122]).1 ++
        (gcmToy.enc (List.replicate 32 0) (List.replicate 12 0) [122, 122]).2) =
      Except.ok [48, 120, 122, 122] ∧
    ([48, 120, 122, 122] : List Nat).length ≠ 66 ∧
    ¬ isHexDigitByte 122 := by
  refine ⟨by decide, by decide, by decide⟩

/-- **C7 amended.** Every successful `decrypt_db_key` result is the code
points `"0x"` followed by exactly the UTF-8 decoding of the plaintext the
cipher verified — the `0x` prefix is guaranteed, but the source performs
no validation of the decoded text's length or characters, so the
64-hex-character shape holds only when the stored plaintext has it.  On
failure the result is an error value carrying no key material. -/
theorem success_output_shape (g : GCM) (k w out : List Nat)
    (h : decrypt_db_key g k w = Except.ok out) :
    out.take 2 = [48, 120] ∧
    ∃ pt, g.decv k ((w.drop 3).take 12)
        ((w.drop 15).take ((w.drop 15).length - 16))
        ((w.drop 15).drop ((w.drop 15).length - 16)) = some pt ∧
      utf8Decode pt = some (out.drop 2) := by
  simp only [decrypt_db_key] at h
  by_cases hh : w.take 3 = v10 ∨ w.take 3 = v11
  · rw [if_pos hh] at h
    by_cases hk : k.length = 16 ∨ k.length = 24 ∨ k.length = 32
    · rw [if_pos hk] at h
      by_cases hz : ((w.drop 3).take 12).length = 0
      · rw [if_pos hz] at h
        exact absurd h (by simp)
      · rw [if_neg hz] at h
        split at h
        next pt hdec =>
          split at h
          next cps hdc =>
            simp only [Except.ok.injEq] at h
            subst h
            exact ⟨rfl, pt, hdec, by simp [hdc]⟩
          next hdc => exact absurd h (by simp)
        next hdec => exact absurd h (by simp)
    · rw [if_neg hk] at h
      exact absurd h (by simp)
  · rw [if_neg hh] at h
    exact absurd h (by simp)

/-- Witness for `success_output_shape`: the successful unwrap of the
two-byte plaintext `"aa"` under the 32-byte zero key with the concrete
`gcmToy` cipher. -/
theorem success_output_shape_witness :
    ([48, 120, 97, 97] : List Nat).take 2 = [48, 120] ∧
    ∃ pt, gcmToy.decv (List.replicate 32 0)
        (((v10 ++ List.replicate 12 0 ++
          (gcmToy.enc (List.replicate 32 0) (List.replicate 12 0) [97, 97]).1 ++
          (gcmToy.enc (List.replicate 32 0) (List.replicate 12 0) [97, 97]).2).drop 3).take 12)
        (((v10 ++ List.replicate 12 0 ++
          (gcmToy.enc (List.replicate 32 0) (List.replicate 12 0) [97, 97]).1 ++
          (gcmToy.enc (List.replicate 32 0) (List.replicate 12 0) [97, 97]).2).drop 15).take
          (((v10 ++ List.replicate 12 0 ++
            (gcmToy.enc (List.replicate 32 0) (List.replicate 12 0) [97, 97]).1 ++
            (gcmToy.enc (List.replicate 32 0) (List.replicate 12 0) [97, 97]).2).drop 15).length - 16))
        (((v10 ++ List.replicate 12 0 ++
          (gcmToy.enc (List.replicate 32 0) (List.replicate 12 0) [97, 97]).1 ++
          (gcmToy.enc (List.replicate 32 0) (List.replicate 12 0) [97, 97]).2).drop 15).drop
          (((v10 ++ List.replicate 12 0 ++
            (gcmToy.enc (List.replicate 32 0) (List.replicate 12 0) [97, 97]).1 ++
            (gcmToy.enc (List.replicate 32 0) (List.replicate 12 0) [97, 97]).2).drop 15).length - 16)) =
        some pt ∧
      utf8Decode pt = some (([48, 120, 97, 97] : List Nat).drop 2) :=
  success_output_shape gcmToy (List.replicate 32 0)
    (v10 ++ List.replicate 12 0 ++
      (gcmToy.enc (List.replicate 32 0) (List.replicate 12 0) [97, 97]).1 ++
      (gcmToy.enc (List.replicate 32 0) (List.replicate 12 0) [97, 97]).2)
    [48, 120, 97, 97] (by decide)

/-- **C8.** The `__main__` orchestrator never invokes a later stage after
an earlier stage has failed: when master-key resolution fails only the
master stage runs; when it succeeds and wrapped-key resolution fails the
unwrap stage does not run; on the success path all three stages run, the
database key is surfaced, and no stage is ever invoked more than once. -/
theorem orchestrator_short_circuit (gm gw : Option (List Nat))
    (dk : List Nat → List Nat → Option (List Nat)) :
    (gm = none → orchestrate gm gw dk = (none, [Stage.master])) ∧
    (∀ mk, gm = some mk → mk.isEmpty = false → gw = none →
      orchestrate gm gw dk = (none, [Stage.master, Stage.wrapped])) ∧
    (∀ mk wk fk, gm = some mk → mk.isEmpty = false → gw = some wk →
      wk.isEmpty = false → dk mk wk = some fk → fk.isEmpty = false →
      orchestrate gm gw dk =
        (some fk, [Stage.master, Stage.wrapped, Stage.unwrap])) ∧
    (∀ s, ((orchestrate gm gw dk).2.count s) ≤ 1) := by
  refine ⟨?_, ?_, ?_, ?_⟩
  · intro h
    subst h
    rfl
  · intro mk h hm hw
    subst h
    subst hw
    simp [orchestrate, hm]
  · intro mk wk fk h hm hw hwk hdk hfk
    subst h
    subst hw
    simp [orchestrate, hm, hwk, hdk, hfk]
  · intro s
    rcases gm with _ | mk
    · cases s <;> simp [orchestrate]
    · by_cases hm : mk.isEmpty
      · cases s <;> simp [orchestrate, hm]
      · rcases gw with _ | wk
        · cases s <;> simp [orchestrate, hm]
        · by_cases hwk : wk.isEmpty
          · cases s <;> simp [orchestrate, hm, hwk]
          · rcases hdk : dk mk wk with _ | fk
            · cases s <;> simp [orchestrate, hm, hwk, hdk, List.count_cons]
            · cases s <;> simp [orchestrate, hm, hwk, hdk, List.count_cons]

/-- Witness for `orchestrator_short_circuit`: the success path with a
concrete master key `[1]`, wrapped key `[2]` and unwrapped key `[3]`. -/
theorem orchestrator_short_circuit_witness :
    orchestrate (some [1]) (some [2]) (fun _ _ => some [3]) =
      (some [3], [Stage.master, Stage.wrapped, Stage.unwrap]) :=
  (orchestrator_short_circuit (some [1]) (some [2]) (fun _ _ => some [3])).2.2.1
    [1] [2] [3] rfl rfl rfl rfl rfl rfl

/-- **C9 counterexample.** The claim says all four analytics queries leave
the stored dataset unchanged.  On the concrete one-row dataset whose
`timestamp` column is numeric, `get_message_counts` (and likewise
`get_active_hours`) replaces the column with datetimes in place, so the
stored dataset after the query differs from the dataset before it. -/
theorem analytics_mutation_cex :
    (get_message_counts sNum).2 ≠ sNum ∧ (get_active_hours sNum).2 ≠ sNum := by
  refine ⟨by decide, by decide⟩

/-- **C9 amended.** `get_top_contacts` and `get_message_distribution`
never modify the stored dataset.  `get_message_counts` and
`get_active_hours` leave it unchanged whenever the `timestamp` column is
already datetime; when it is numeric they convert that column to datetime
in place — preserving the rows' instants and every other column — and the
conversion happens at most once: repeating a time-based query returns the
same result on the converted dataset, so repeated or reordered queries
observe stable data from the first conversion on. -/
theorem analytics_queries_frame (s : SigData) (n : Nat) :
    (get_top_contacts s n).2 = s ∧
    (get_message_distribution s).2 = s ∧
    (s.tsDtype = TsDtype.datetime →
      (get_message_counts s).2 = s ∧ (get_active_hours s).2 = s) ∧
    (get_message_counts s).2.rows = s.rows ∧
    (get_message_counts s).2.hasType = s.hasType ∧
    (get_active_hours s).2.rows = s.rows ∧
    (get_message_counts ((get_message_counts s).2)).1 = (get_message_counts s).1 ∧
    (get_active_hours ((get_active_hours s).2)).1 = (get_active_hours s).1 ∧
    (get_message_counts ((get_message_counts s).2)).2 = (get_message_counts s).2 := by
  obtain ⟨dt, htp, rows⟩ := s
  cases dt <;> cases htp <;>
    simp [get_top_contacts, get_message_distribution, get_message_counts,
      get_active_hours, ensure_datetime]

/-- Witness for `analytics_queries_frame`: on the concrete dataset whose
`timestamp` column is already datetime, the two time-based queries leave
the dataset unchanged. -/
theorem analytics_queries_frame_witness :
    sDt.tsDtype = TsDtype.datetime ∧
    (get_message_counts sDt).2 = sDt ∧ (get_active_hours sDt).2 = sDt :=
  ⟨rfl, ((analytics_queries_frame sDt 0).2.2.1 rfl).1,
    ((analytics_queries_frame sDt 0).2.2.1 rfl).2⟩

/-- **C10.** `get_appdata_path` with `local=False` reads the roaming
`APPDATA` variable, both file paths the program builds (`Local State` in
`get_master_key` and `config.json` in `get_wrapped_db_key`) are derived
from it, and the `local=True` branch (`LOCALAPPDATA`) is never exercised
by any caller: the two paths depend only on the `APPDATA` component of
the environment. -/
theorem paths_use_roaming_appdata :
    (∀ env, get_appdata_path env false = env.appdata) ∧
    (∀ env, get_appdata_path env true = env.localAppdata) ∧
    (∀ env, local_state_path env =
      Option.map (fun base => ntJoin (ntJoin base "Signal") "Local State")
        env.appdata) ∧
    (∀ env, config_path env =
      Option.map (fun base => ntJoin (ntJoin base "Signal") "config.json")
        env.appdata) ∧
    (∀ env env', env.appdata = env'.appdata →
      local_state_path env = local_state_path env' ∧
        config_path env = config_path env') := by
  refine ⟨fun env => rfl, fun env => rfl, fun env => rfl, fun env => rfl, ?_⟩
  intro env env' h
  constructor <;>
    simp [local_state_path, config_path, get_appdata_path, h]

/-- Witness for `paths_use_roaming_appdata`: two environments sharing
`APPDATA` but with different `LOCALAPPDATA` values yield identical
`Local State` and `config.json` paths. -/
theorem paths_use_roaming_appdata_witness :
    local_state_path { appdata := some "R", localAppdata := some "L1" } =
      local_state_path { appdata := some "R", localAppdata := some "L2" } ∧
    config_path { appdata := some "R", localAppdata := some "L1" } =
      config_path { appdata := some "R", localAppdata := some "L2" } :=
  paths_use_roaming_appdata.2.2.2.2 _ _ rfl
